import Mathlib

/-!
Shallow embedding of `src/handler.py`, a Lambda-style event handler that
validates, normalizes and transforms three kinds of event records
(USER_SIGNUP, PAYMENT, FILE_UPLOAD) into a uniform response envelope.

Modelling conventions:
* Python/JSON values are the inductive `JVal`.  Python numbers that the
  program treats as floats are modelled as exact rationals; `round(x, 3)`
  is modelled as round-half-to-even at 3 decimal places (`round3`).
* `isinstance` is modelled with Python's semantics, in particular
  `isinstance(True, int)` holds, since `bool` is a subclass of `int`.
* Code that can raise a Python exception (attribute access such as
  `.lower()` on a value of the wrong type) is modelled in
  `Except String`; a raised exception is `Except.error`.
* `dict.get(k)` returns Python `None` when the key is absent, modelled by
  `JVal.null`.
-/

namespace LambdaHandler

/-- A JSON-compatible Python value: `None`, `bool`, `int`, `float`
(modelled as an exact rational), `str`, `list`, or `dict` with string
keys (modelled as an association list). -/
inductive JVal where
  | null
  | bool (b : Bool)
  | int (n : ℤ)
  | float (q : ℚ)
  | str (s : String)
  | list (xs : List JVal)
  | obj (kvs : List (String × JVal))

/-- Python `event.get(k)`: the value stored under `k`, or `None`
(`JVal.null`) when the key is absent. -/
def dictGet (kvs : List (String × JVal)) (k : String) : JVal :=
  (kvs.lookup k).getD JVal.null

/-- Python `isinstance(v, int)`.  `bool` is a subclass of `int`, so
boolean values satisfy this check. -/
def py_isinstance_int : JVal → Bool
  | .int _ => true
  | .bool _ => true
  | _ => false

/-- Python `isinstance(v, str)`. -/
def py_isinstance_str : JVal → Bool
  | .str _ => true
  | _ => false

/-- Python `isinstance(v, (int, float))`: true for ints, bools and
floats. -/
def py_isinstance_num : JVal → Bool
  | .int _ => true
  | .bool _ => true
  | .float _ => true
  | _ => false

/-- The numeric value of an int/bool/float, used by the comparisons the
source performs on values that already passed `isinstance(v, (int, float))`
(Python compares `True`/`False` as `1`/`0`).  Other constructors are never
reached under that guard; they map to `0`. -/
def numVal : JVal → ℚ
  | .int n => (n : ℚ)
  | .bool b => if b then 1 else 0
  | .float q => q
  | _ => 0

/-- The integer value of an int/bool, used on values that passed
`isinstance(v, int)`. -/
def intVal : JVal → ℤ
  | .int n => n
  | .bool b => if b then 1 else 0
  | _ => 0

/-- Python `float(v)` on a value: defined for ints, bools and floats,
a `TypeError` (here `none`) otherwise. -/
def pyFloat : JVal → Option ℚ
  | .int n => some ((n : ℚ))
  | .bool b => some (if b then 1 else 0)
  | .float q => some q
  | _ => none

/-- ASCII lower-casing of one character, as Python `str.lower` acts on
the ASCII range (the program only manipulates ASCII field values). -/
def pyLower (s : String) : String := ⟨s.data.map Char.toLower⟩

/-- ASCII upper-casing, as Python `str.upper` on the ASCII range. -/
def pyUpper (s : String) : String := ⟨s.data.map Char.toUpper⟩

/-- The characters Python's `str.strip()` and the regex class `\s`
treat as whitespace. -/
def pyWhitespace (c : Char) : Bool :=
  c == ' ' || c == '\t' || c == '\n' || c == '\r' || c == '\x0b' ||
  c == '\x0c' || c == '\x1c' || c == '\x1d' || c == '\x1e' || c == '\x1f' ||
  c == '\x85' || c == '\u00a0' || c == '\u1680' ||
  ('\u2000' ≤ c && c ≤ '\u200a') || c == '\u2028' || c == '\u2029' ||
  c == '\u202f' || c == '\u205f' || c == '\u3000'

/-- Python `s.strip()`: drop leading and trailing whitespace. -/
def pyStrip (s : String) : String :=
  ⟨((s.data.dropWhile pyWhitespace).reverse.dropWhile pyWhitespace).reverse⟩

/-- A character matched by the regex class `[^@\s]`. -/
def emailChar (c : Char) : Bool := c != '@' && !pyWhitespace c

/-- In `re.match(r"...$", s)` the `$` anchor also matches just before a
single newline at the end of the string; so matching the anchored email
pattern against `s` is matching its core against `s` with one trailing
newline removed. -/
def stripTrailingNewline (cs : List Char) : List Char :=
  if cs.getLast? == some '\n' then cs.dropLast else cs

/-- Full match of the regex core `[^@\s]+@[^@\s]+\.[^@\s]+` against a
character list: a non-empty `[^@\s]+` local part up to the first `@`,
then a domain of `[^@\s]` characters containing a `.` that has at least
one character before it and after it within the domain. -/
def emailMatchCore (cs : List Char) : Bool :=
  let locl := cs.takeWhile (fun c => c != '@')
  match cs.dropWhile (fun c => c != '@') with
  | [] => false
  | _ :: dom =>
    !locl.isEmpty && locl.all emailChar && dom.all emailChar &&
      ((dom.drop 1).dropLast.contains '.')

/-- `_is_email` from the source: `re.match(r"^[^@\s]+@[^@\s]+\.[^@\s]+$", value)`. -/
def _is_email (s : String) : Bool :=
  emailMatchCore (stripTrailingNewline s.data)

/-- Python `str()` / `repr()` rendering of a float value: the exact
decimal expansion with trailing zeros stripped and at least one
fractional digit, e.g. `2.5`, `0.02`, `100.0`.  Every IEEE double has a
finite decimal expansion of fewer than 1200 digits, so within the model
the fraction fallback is unreachable for genuine float values.
(Python's scientific notation for very large/small magnitudes is not
modelled; this rendering is only used inside interpolated error
messages.) -/
def floatRepr (q : ℚ) : String :=
  let sign := if q.num < 0 then "-" else ""
  let n := q.num.natAbs
  match (List.range 1200).find? (fun k => 10 ^ k % q.den == 0) with
  | some k =>
    let scaled := n * 10 ^ k / q.den
    let ip := scaled / 10 ^ k
    let fr := toString (scaled % 10 ^ k)
    let fr := String.mk (List.replicate (k - fr.length) '0') ++ fr
    let fr := String.mk (fr.data.reverse.dropWhile (fun c => c == '0')).reverse
    let fr := if fr = "" then "0" else fr
    sign ++ toString ip ++ "." ++ fr
  | none => sign ++ toString n ++ "/" ++ toString q.den

mutual

/-- Python `repr(v)`, as used for elements when a container is rendered
by `str()` inside an f-string. -/
def pyRepr : JVal → String
  | .null => "None"
  | .bool true => "True"
  | .bool false => "False"
  | .int n => toString n
  | .float q => floatRepr q
  | .str s => "\x27" ++ s ++ "\x27"
  | .list xs => "[" ++ String.intercalate ", " (pyReprList xs) ++ "]"
  | .obj kvs => "\x7b" ++ String.intercalate ", " (pyReprObj kvs) ++ "\x7d"

def pyReprList : List JVal → List String
  | [] => []
  | v :: vs => pyRepr v :: pyReprList vs

def pyReprObj : List (String × JVal) → List String
  | [] => []
  | (k, v) :: kvs => ("\x27" ++ k ++ "\x27: " ++ pyRepr v) :: pyReprObj kvs

end

/-- Python `str(v)`, the conversion an f-string applies when
interpolating a value. -/
def pyStr : JVal → String
  | .str s => s
  | v => pyRepr v

/-- `_err(*msgs)` from the source: the standard error envelope. -/
def _err (msgs : List String) : JVal :=
  .obj [("status", .str "error"), ("message", .str "Event rejected"),
        ("data", .null), ("errors", .list (msgs.map .str))]

/-- `_ok(message, data)` from the source: the standard ok envelope. -/
def _ok (message : String) (data : JVal) : JVal :=
  .obj [("status", .str "ok"), ("message", .str message),
        ("data", data), ("errors", .list [])]

/-- Results of running a piece of the Python program: either a returned
value or a raised exception. -/
abbrev PyM := Except String

/-- Round a rational to the nearest integer, ties to the even integer
(the rounding Python's `round` performs).  Stated on the numerator and
denominator: with `f = ⌊q⌋` and remainder `r = num - den * f ∈ [0, den)`,
round down when `r < den / 2`, up when `r > den / 2`, and to the even
neighbour on a tie. -/
def roundHalfEven (q : ℚ) : ℤ :=
  let d : ℤ := (q.den : ℤ)
  let f := q.num.fdiv d
  let r := q.num - d * f
  if 2 * r < d then f
  else if 2 * r > d then f + 1
  else if f % 2 == 0 then f else f + 1

/-- Python `round(x, 3)` on the model's exact numbers: round-half-to-even
at 3 decimal places. -/
def round3 (q : ℚ) : ℚ := ((roundHalfEven (q * 1000) : ℚ)) / 1000

/-- The allowed plan values checked after lower-casing. -/
def planAllowed (s : String) : Bool := s == "free" || s == "pro" || s == "edu"

/-- The allowed currencies checked after upper-casing. -/
def currencyAllowed (s : String) : Bool := s == "BHD" || s == "USD" || s == "EUR"

/-- The `plan = plan.lower()` normalization step: lower-case the value
when it is a string, leave it unchanged otherwise. -/
def normLowerIfStr : JVal → JVal
  | .str s => .str (pyLower s)
  | v => v

/-- The error list `handle_user_signup` accumulates, in source order:
`user_id` type, `email` type, `plan` type, email format (only when
`email` is a string), plan value (only when `plan` is a string, checked
after lower-casing). -/
def signupErrors (user_id email plan : JVal) : List String :=
  (if !py_isinstance_int user_id then ["user_id must be an integer"] else []) ++
  (if !py_isinstance_str email then ["email must be a string"] else []) ++
  (if !py_isinstance_str plan then ["plan must be a string"] else []) ++
  (match email with
   | .str s => if !_is_email s then ["Invalid email format"] else []
   | _ => []) ++
  (match plan with
   | .str s => if !planAllowed (pyLower s) then ["Invalid plan value"] else []
   | _ => [])

/-- `handle_user_signup(event)` from the source.  The success branch
calls `email.lower()`, which would raise on a non-string; control flow
guarantees `email` is a string there (otherwise an error was recorded). -/
def handle_user_signup (kvs : List (String × JVal)) : PyM JVal :=
  let user_id := dictGet kvs "user_id"
  let email := dictGet kvs "email"
  let plan := dictGet kvs "plan"
  let errors := signupErrors user_id email plan
  if !errors.isEmpty then .ok (_err errors)
  else
    match email with
    | .str es =>
      let planN := normLowerIfStr plan
      .ok (_ok "Signup processed" (.obj [
        ("user_id", user_id),
        ("email", .str (pyLower es)),
        ("plan", planN),
        ("welcome_email_subject",
          .str ("Welcome to the " ++ pyStr planN ++ " plan!"))]))
    | _ => .error "AttributeError: lower"

/-- The error list `handle_payment` accumulates, in source order:
`payment_id` type, `user_id` type, `amount` type, `currency` type,
amount positivity (only when `amount` passed its type check), currency
membership (only when `currency` is a string, checked after
upper-casing). -/
def paymentErrors (payment_id user_id amount currency : JVal) : List String :=
  (if !py_isinstance_str payment_id then ["payment_id must be a string"] else []) ++
  (if !py_isinstance_int user_id then ["user_id must be an integer"] else []) ++
  (if !py_isinstance_num amount then ["amount must be a number"] else []) ++
  (if !py_isinstance_str currency then ["currency must be a string"] else []) ++
  (if py_isinstance_num amount && decide (numVal amount ≤ 0)
     then ["amount must be greater than 0"] else []) ++
  (match currency with
   | .str s => if !currencyAllowed (pyUpper s) then ["Unsupported currency"] else []
   | _ => [])

/-- `handle_payment(event)` from the source.  The success branch computes
`amount = round(float(amount), 3)`, `fee = round(amount * 0.02, 3)`,
`net_amount = round(amount - fee, 3)`; `float(amount)` would raise a
`TypeError` on a non-number and the upper-casing would raise on a
non-string, both unreachable when no error was recorded. -/
def handle_payment (kvs : List (String × JVal)) : PyM JVal :=
  let payment_id := dictGet kvs "payment_id"
  let user_id := dictGet kvs "user_id"
  let amount := dictGet kvs "amount"
  let currency := dictGet kvs "currency"
  let errors := paymentErrors payment_id user_id amount currency
  if !errors.isEmpty then .ok (_err errors)
  else
    match pyFloat amount, currency with
    | some q, .str cs =>
      let amountR := round3 q
      let fee := round3 (amountR * (2 / 100))
      let net_amount := round3 (amountR - fee)
      .ok (_ok "Payment processed" (.obj [
        ("payment_id", payment_id),
        ("user_id", user_id),
        ("amount", .float amountR),
        ("currency", .str (pyUpper cs)),
        ("fee", .float fee),
        ("net_amount", .float net_amount)]))
    | _, _ => .error "TypeError: float"

/-- The error list `handle_file_upload` accumulates, in source order:
`file_name` type, `size_bytes` type, `size_bytes >= 0` (only when
`size_bytes` passed its type check), `bucket` type, `uploader` type,
uploader email format (only when `uploader` is a string). -/
def fileUploadErrors (file_name size_bytes bucket uploader : JVal) : List String :=
  (if !py_isinstance_str file_name then ["file_name must be a string"] else []) ++
  (if !py_isinstance_int size_bytes then ["size_bytes must be an integer"] else []) ++
  (if py_isinstance_int size_bytes && decide (intVal size_bytes < 0)
     then ["size_bytes must be >= 0"] else []) ++
  (if !py_isinstance_str bucket then ["bucket must be a string"] else []) ++
  (if !py_isinstance_str uploader then ["uploader must be a string"] else []) ++
  (match uploader with
   | .str s => if !_is_email s then ["Invalid uploader email"] else []
   | _ => [])

/-- The `storage_class` assignment from the source: a 3-way threshold on
`size_bytes`. -/
def storage_class_of (n : ℤ) : String :=
  if n < 1000000 then "STANDARD"
  else if n < 50000000 then "STANDARD_IA"
  else "GLACIER"

/-- `handle_file_upload(event)` from the source.  The success branch
calls `.strip()` / `.lower()`, which would raise on non-strings,
unreachable when no error was recorded. -/
def handle_file_upload (kvs : List (String × JVal)) : PyM JVal :=
  let file_name := dictGet kvs "file_name"
  let size_bytes := dictGet kvs "size_bytes"
  let bucket := dictGet kvs "bucket"
  let uploader := dictGet kvs "uploader"
  let errors := fileUploadErrors file_name size_bytes bucket uploader
  if !errors.isEmpty then .ok (_err errors)
  else
    match file_name, bucket, uploader with
    | .str fs, .str bs, .str us =>
      .ok (_ok "Upload processed" (.obj [
        ("file_name", .str (pyStrip fs)),
        ("size_bytes", size_bytes),
        ("bucket", .str (pyLower bs)),
        ("uploader", .str (pyLower us)),
        ("storage_class", .str (storage_class_of (intVal size_bytes)))]))
    | _, _, _ => .error "AttributeError: strip"

/-- The Python expression `event_type in ALLOWED_TYPES`: membership in a
set of strings hashes the candidate first, so an unhashable value (a
list or a dict) raises `TypeError: unhashable type`; any other value is
hashable and simply fails the membership test unless it is one of the
three allowed strings. -/
def in_ALLOWED_TYPES : JVal → PyM Bool
  | .str s => .ok (s == "USER_SIGNUP" || s == "PAYMENT" || s == "FILE_UPLOAD")
  | .list _ => .error "TypeError: unhashable type: \x27list\x27"
  | .obj _ => .error "TypeError: unhashable type: \x27dict\x27"
  | _ => .ok false

/-- Events on which the `ALLOWED_TYPES` membership test cannot raise:
either the event is not a dict, or it has no `type` key, or its `type`
value is hashable (not a list or dict).  Exactly on these events the
handler runs to completion. -/
def type_value_hashable (e : JVal) : Bool :=
  match e with
  | .obj kvs =>
    match kvs.lookup "type" with
    | some (.list _) => false
    | some (.obj _) => false
    | _ => true
  | _ => true

/-- `handler(event, context)` from the source: the structural checks in
order (dict check, `type` presence, `ALLOWED_TYPES` membership — which
raises for unhashable `type` values), then dispatch on the `type`
value.  `context` is accepted but unused. -/
def handler (event : JVal) (context : Option JVal) : PyM JVal :=
  match event with
  | .obj kvs =>
    match kvs.lookup "type" with
    | none => .ok (_err ["Missing \x27type\x27 field"])
    | some event_type =>
      match in_ALLOWED_TYPES event_type with
      | .error msg => .error msg
      | .ok false => .ok (_err ["Unsupported event type: " ++ pyStr event_type])
      | .ok true =>
        match event_type with
        | .str s =>
          if s == "USER_SIGNUP" then handle_user_signup kvs
          else if s == "PAYMENT" then handle_payment kvs
          else if s == "FILE_UPLOAD" then handle_file_upload kvs
          else .ok (_err ["Unhandled event type"])
        | _ => .ok (_err ["Unhandled event type"])
  | _ => .ok (_err ["Event must be a dictionary"])

/-! ### Spec-side predicates -/

/-- The envelope shape and invariant stated by the spec: exactly the four
keys `status`, `message`, `data`, `errors`, with `status` either `"ok"` or
`"error"`, and `status = "ok"`, `errors = []`, `data` non-null pairwise
equivalent. -/
def envelope_ok : JVal → Prop
  | .obj [("status", .str st), ("message", .str _), ("data", d), ("errors", .list errs)] =>
      (st = "ok" ∨ st = "error") ∧
      (st = "ok" ↔ errs = []) ∧
      (st = "ok" ↔ d ≠ .null) ∧
      (st = "error" ↔ errs ≠ []) ∧
      (st = "error" ↔ d = .null)
  | _ => False

/-- The email pattern exactly as the spec's prose states it: exactly one
`@`, non-empty text before and after it, no whitespace anywhere, and at
least one `.` in the domain portion after the `@`. -/
def spec_email_prose (s : String) : Bool :=
  let cs := s.data
  (cs.countP (fun c => c == '@') == 1) &&
  !(cs.takeWhile (fun c => c != '@')).isEmpty &&
  !((cs.dropWhile (fun c => c != '@')).drop 1).isEmpty &&
  cs.all (fun c => !pyWhitespace c) &&
  ((cs.dropWhile (fun c => c != '@')).drop 1).contains '.'

/-- The email check as the code actually behaves (amended prose): after
ignoring one trailing newline (permitted by the `$` anchor), the string
must contain exactly one `@`, non-empty text before it, no whitespace
anywhere, and the domain portion after the `@` must contain a `.` with at
least one character before it and after it within the domain. -/
def spec_email_amended (s : String) : Bool :=
  let cs := stripTrailingNewline s.data
  (cs.countP (fun c => c == '@') == 1) &&
  !(cs.takeWhile (fun c => c != '@')).isEmpty &&
  cs.all (fun c => !pyWhitespace c) &&
  (let dom := (cs.dropWhile (fun c => c != '@')).drop 1
   (dom.drop 1).dropLast.contains '.')

/-- The file-upload checks as the spec lists them: a table of
(pass-condition, error-message) pairs in declaration order, where the
`size_bytes >= 0` check only applies if `size_bytes` passed its type
check, and the uploader email-format check only applies if `uploader`
passed its type check. -/
def spec_file_upload_checks (file_name size_bytes bucket uploader : JVal) :
    List (Bool × String) :=
  [(py_isinstance_str file_name, "file_name must be a string"),
   (py_isinstance_int size_bytes, "size_bytes must be an integer"),
   (!py_isinstance_int size_bytes || decide (0 ≤ intVal size_bytes),
     "size_bytes must be >= 0"),
   (py_isinstance_str bucket, "bucket must be a string"),
   (py_isinstance_str uploader, "uploader must be a string"),
   ((match uploader with | .str s => _is_email s | _ => true),
     "Invalid uploader email")]

/-- The error list the spec describes for file uploads: the messages of
all failed applicable checks, in order. -/
def spec_file_upload_errors (file_name size_bytes bucket uploader : JVal) :
    List String :=
  ((spec_file_upload_checks file_name size_bytes bucket uploader).filter
    (fun p => !p.1)).map Prod.snd

/-! ### Helper lemmas -/

theorem isStr_exists {v : JVal} (h : py_isinstance_str v = true) :
    ∃ s, v = .str s := by
  cases v <;> first | exact ⟨_, rfl⟩ | simp [py_isinstance_str] at h

theorem isNum_pyFloat {v : JVal} (h : py_isinstance_num v = true) :
    ∃ q, pyFloat v = some q := by
  cases v <;> first | exact ⟨_, rfl⟩ | simp [py_isinstance_num, pyFloat] at h ⊢

theorem err_envelope_ok {msgs : List String} (h : msgs ≠ []) :
    envelope_ok (_err msgs) := by
  simp [_err, envelope_ok, h]

theorem ok_envelope_ok (m : String) (kvs : List (String × JVal)) :
    envelope_ok (_ok m (.obj kvs)) := by
  simp [_ok, envelope_ok]

theorem signupErrors_nil {u e p : JVal} (h : signupErrors u e p = []) :
    py_isinstance_int u = true ∧ py_isinstance_str e = true ∧
      py_isinstance_str p = true := by
  refine ⟨?_, ?_, ?_⟩
  · cases hb : py_isinstance_int u
    · exfalso; simp [signupErrors, hb] at h
    · rfl
  · cases hb : py_isinstance_str e
    · exfalso; simp [signupErrors, hb] at h
    · rfl
  · cases hb : py_isinstance_str p
    · exfalso; simp [signupErrors, hb] at h
    · rfl

theorem paymentErrors_nil {pid u a c : JVal} (h : paymentErrors pid u a c = []) :
    py_isinstance_str pid = true ∧ py_isinstance_int u = true ∧
      py_isinstance_num a = true ∧ py_isinstance_str c = true := by
  refine ⟨?_, ?_, ?_, ?_⟩
  · cases hb : py_isinstance_str pid
    · exfalso; simp [paymentErrors, hb] at h
    · rfl
  · cases hb : py_isinstance_int u
    · exfalso; simp [paymentErrors, hb] at h
    · rfl
  · cases hb : py_isinstance_num a
    · exfalso; simp [paymentErrors, hb] at h
    · rfl
  · cases hb : py_isinstance_str c
    · exfalso; simp [paymentErrors, hb] at h
    · rfl

theorem fileUploadErrors_nil {f s b u : JVal} (h : fileUploadErrors f s b u = []) :
    py_isinstance_str f = true ∧ py_isinstance_int s = true ∧
      py_isinstance_str b = true ∧ py_isinstance_str u = true := by
  refine ⟨?_, ?_, ?_, ?_⟩
  · cases hb : py_isinstance_str f
    · exfalso; simp [fileUploadErrors, hb] at h
    · rfl
  · cases hb : py_isinstance_int s
    · exfalso; simp [fileUploadErrors, hb] at h
    · rfl
  · cases hb : py_isinstance_str b
    · exfalso; simp [fileUploadErrors, hb] at h
    · rfl
  · cases hb : py_isinstance_str u
    · exfalso; simp [fileUploadErrors, hb] at h
    · rfl

theorem handle_user_signup_total (kvs : List (String × JVal)) :
    ∃ env, handle_user_signup kvs = .ok env ∧ envelope_ok env := by
  simp only [handle_user_signup]
  rcases h : signupErrors (dictGet kvs "user_id") (dictGet kvs "email")
      (dictGet kvs "plan") with - | ⟨m, ms⟩
  · obtain ⟨-, he, -⟩ := signupErrors_nil h
    obtain ⟨s, hs⟩ := isStr_exists he
    rw [hs]
    exact ⟨_, rfl, ok_envelope_ok _ _⟩
  · exact ⟨_, rfl, err_envelope_ok (by simp)⟩

theorem handle_payment_total (kvs : List (String × JVal)) :
    ∃ env, handle_payment kvs = .ok env ∧ envelope_ok env := by
  simp only [handle_payment]
  rcases h : paymentErrors (dictGet kvs "payment_id") (dictGet kvs "user_id")
      (dictGet kvs "amount") (dictGet kvs "currency") with - | ⟨m, ms⟩
  · obtain ⟨-, -, ha, hc⟩ := paymentErrors_nil h
    obtain ⟨q, hq⟩ := isNum_pyFloat ha
    obtain ⟨s, hs⟩ := isStr_exists hc
    rw [hq, hs]
    exact ⟨_, rfl, ok_envelope_ok _ _⟩
  · exact ⟨_, rfl, err_envelope_ok (by simp)⟩

theorem handle_file_upload_total (kvs : List (String × JVal)) :
    ∃ env, handle_file_upload kvs = .ok env ∧ envelope_ok env := by
  simp only [handle_file_upload]
  rcases h : fileUploadErrors (dictGet kvs "file_name") (dictGet kvs "size_bytes")
      (dictGet kvs "bucket") (dictGet kvs "uploader") with - | ⟨m, ms⟩
  · obtain ⟨hf, -, hb, hu⟩ := fileUploadErrors_nil h
    obtain ⟨fs, hfs⟩ := isStr_exists hf
    obtain ⟨bs, hbs⟩ := isStr_exists hb
    obtain ⟨us, hus⟩ := isStr_exists hu
    rw [hfs, hbs, hus]
    exact ⟨_, rfl, ok_envelope_ok _ _⟩
  · exact ⟨_, rfl, err_envelope_ok (by simp)⟩

theorem handler_total_of_hashable (e : JVal) (ctx : Option JVal)
    (hh : type_value_hashable e = true) :
    ∃ env, handler e ctx = .ok env ∧ envelope_ok env := by
  cases e with
  | obj kvs =>
    simp only [handler]
    rcases hlook : kvs.lookup "type" with - | v
    · exact ⟨_, rfl, err_envelope_ok (by simp)⟩
    · simp only [type_value_hashable, hlook] at hh
      cases v with
      | list xs => simp at hh
      | obj kvs2 => simp at hh
      | null => exact ⟨_, rfl, err_envelope_ok (by simp)⟩
      | bool b => exact ⟨_, rfl, err_envelope_ok (by simp)⟩
      | int n => exact ⟨_, rfl, err_envelope_ok (by simp)⟩
      | float q => exact ⟨_, rfl, err_envelope_ok (by simp)⟩
      | str s =>
        cases hb : (s == "USER_SIGNUP" || s == "PAYMENT" || s == "FILE_UPLOAD")
        · simp only [in_ALLOWED_TYPES, hb]
          exact ⟨_, rfl, err_envelope_ok (by simp)⟩
        · simp only [in_ALLOWED_TYPES, hb]
          by_cases h1 : s = "USER_SIGNUP"
          · simp only [h1]
            simpa using handle_user_signup_total kvs
          · by_cases h2 : s = "PAYMENT"
            · simp only [h2]
              simpa [h1] using handle_payment_total kvs
            · by_cases h3 : s = "FILE_UPLOAD"
              · simp only [h3]
                simpa [h1, h2] using handle_file_upload_total kvs
              · simp [h1, h2, h3] at hb
  | null => exact ⟨_, rfl, err_envelope_ok (by simp)⟩
  | bool b => exact ⟨_, rfl, err_envelope_ok (by simp)⟩
  | int n => exact ⟨_, rfl, err_envelope_ok (by simp)⟩
  | float q => exact ⟨_, rfl, err_envelope_ok (by simp)⟩
  | str s => exact ⟨_, rfl, err_envelope_ok (by simp)⟩
  | list xs => exact ⟨_, rfl, err_envelope_ok (by simp)⟩

theorem handler_ok_envelope (e : JVal) (ctx : Option JVal) (env : JVal)
    (h : handler e ctx = .ok env) : envelope_ok env := by
  cases e with
  | obj kvs =>
    simp only [handler] at h
    rcases hlook : kvs.lookup "type" with - | v <;> rw [hlook] at h
    · obtain rfl := (Except.ok.inj h).symm
      exact err_envelope_ok (by simp)
    · cases v with
      | list xs => simp [in_ALLOWED_TYPES] at h
      | obj kvs2 => simp [in_ALLOWED_TYPES] at h
      | null =>
        obtain rfl := (Except.ok.inj h).symm
        exact err_envelope_ok (by simp)
      | bool b =>
        obtain rfl := (Except.ok.inj h).symm
        exact err_envelope_ok (by simp)
      | int n =>
        obtain rfl := (Except.ok.inj h).symm
        exact err_envelope_ok (by simp)
      | float q =>
        obtain rfl := (Except.ok.inj h).symm
        exact err_envelope_ok (by simp)
      | str s =>
        cases hb : (s == "USER_SIGNUP" || s == "PAYMENT" || s == "FILE_UPLOAD") <;>
          simp only [in_ALLOWED_TYPES, hb] at h
        · obtain rfl := (Except.ok.inj h).symm
          exact err_envelope_ok (by simp)
        · by_cases h1 : s = "USER_SIGNUP"
          · subst h1
            simp only [show ("USER_SIGNUP" == "USER_SIGNUP") = true from rfl,
              if_true] at h
            obtain ⟨env2, he, hok⟩ := handle_user_signup_total kvs
            rw [he] at h
            obtain rfl := (Except.ok.inj h).symm
            exact hok
          · by_cases h2 : s = "PAYMENT"
            · subst h2
              simp only [show ("PAYMENT" == "USER_SIGNUP") = false from rfl,
                show ("PAYMENT" == "PAYMENT") = true from rfl,
                if_false, if_true, Bool.false_eq_true] at h
              obtain ⟨env2, he, hok⟩ := handle_payment_total kvs
              rw [he] at h
              obtain rfl := (Except.ok.inj h).symm
              exact hok
            · by_cases h3 : s = "FILE_UPLOAD"
              · subst h3
                simp only [show ("FILE_UPLOAD" == "USER_SIGNUP") = false from rfl,
                  show ("FILE_UPLOAD" == "PAYMENT") = false from rfl,
                  show ("FILE_UPLOAD" == "FILE_UPLOAD") = true from rfl,
                  if_false, if_true, Bool.false_eq_true] at h
                obtain ⟨env2, he, hok⟩ := handle_file_upload_total kvs
                rw [he] at h
                obtain rfl := (Except.ok.inj h).symm
                exact hok
              · simp [h1, h2, h3] at hb
  | null =>
    obtain rfl := (Except.ok.inj h).symm
    exact err_envelope_ok (by simp)
  | bool b =>
    obtain rfl := (Except.ok.inj h).symm
    exact err_envelope_ok (by simp)
  | int n =>
    obtain rfl := (Except.ok.inj h).symm
    exact err_envelope_ok (by simp)
  | float q =>
    obtain rfl := (Except.ok.inj h).symm
    exact err_envelope_ok (by simp)
  | str s =>
    obtain rfl := (Except.ok.inj h).symm
    exact err_envelope_ok (by simp)
  | list xs =>
    obtain rfl := (Except.ok.inj h).symm
    exact err_envelope_ok (by simp)

/-! ### Rounding helper lemmas -/

theorem fdiv_one_eq (n : ℤ) : n.fdiv 1 = n := by
  rcases n with m | m
  · cases m with
    | zero => rfl
    | succ k => show Int.ofNat ((k + 1) / 1) = Int.ofNat (k + 1); rw [Nat.div_one]
  · show Int.negSucc (m / 1) = Int.negSucc m
    rw [Nat.div_one]

theorem roundHalfEven_intCast (n : ℤ) : roundHalfEven ((n : ℚ)) = n := by
  simp [roundHalfEven, Rat.intCast_num, Rat.intCast_den, fdiv_one_eq]

theorem round3_of_intCast (q : ℚ) (n : ℤ) (h : q * 1000 = (n : ℚ)) :
    round3 q = (n : ℚ) / 1000 := by
  rw [round3, h, roundHalfEven_intCast]

/-! ### Claim theorems -/

/-- C1 counterexample: for the event `\x7b"type": []\x7d` the handler does
not return an envelope at all — the membership test raises `TypeError`,
so there is no returned record with the four keys. -/
theorem spec_C1_envelope_counterexample :
    handler (.obj [("type", JVal.list [])]) none =
      .error "TypeError: unhashable type: \x27list\x27" ∧
    ¬ ∃ env, handler (.obj [("type", JVal.list [])]) none = .ok env ∧
        envelope_ok env := by
  refine ⟨rfl, ?_⟩
  rintro ⟨env, heq, -⟩
  rw [show handler (.obj [("type", JVal.list [])]) none =
      .error "TypeError: unhashable type: \x27list\x27" from rfl] at heq
  exact Except.noConfusion heq

/-- C1 (amended): whenever `handler` returns a value it is a record with
exactly the four keys `status`, `message`, `data`, `errors`, with
`status` either `"ok"` or `"error"`, and `status = "ok"`, `errors = []`,
`data` non-null pairwise equivalent; and `handler` does return a value
whenever the event's `type` value is hashable (in particular for every
event that is not a dict carrying a list- or dict-valued `type`). -/
theorem spec_C1_envelope_invariant (e : JVal) (ctx : Option JVal) :
    (∀ env, handler e ctx = .ok env → envelope_ok env) ∧
    (type_value_hashable e = true →
      ∃ env, handler e ctx = .ok env ∧ envelope_ok env) :=
  ⟨fun env h => handler_ok_envelope e ctx env h,
   fun hh => handler_total_of_hashable e ctx hh⟩

/-- C1 witness: at a concrete unsupported-type event, both conjuncts
instantiated and their hypotheses discharged. -/
theorem spec_C1_envelope_invariant_witness :
    envelope_ok (_err ["Unsupported event type: UNKNOWN"]) ∧
    ∃ env, handler (.obj [("type", .str "UNKNOWN")]) none = .ok env ∧
      envelope_ok env := by
  refine ⟨?_, ?_⟩
  · exact (spec_C1_envelope_invariant (.obj [("type", .str "UNKNOWN")]) none).1
      (_err ["Unsupported event type: UNKNOWN"]) rfl
  · exact (spec_C1_envelope_invariant (.obj [("type", .str "UNKNOWN")]) none).2 rfl

/-- C2: the claim says no exception ever propagates out of `handler`,
explicitly including events whose `type` field holds a list or a record.
The code contradicts it (and its own docstring, which promises a dict
return): `event_type not in ALLOWED_TYPES` hashes the value, so a list
or dict `type` value raises an uncaught `TypeError: unhashable type`.
This theorem evaluates the code at both failing inputs. -/
theorem spec_C2_exception_on_unhashable :
    handler (.obj [("type", JVal.list [])]) none =
      .error "TypeError: unhashable type: \x27list\x27" ∧
    handler (.obj [("type", JVal.obj [("k", JVal.null)])]) none =
      .error "TypeError: unhashable type: \x27dict\x27" :=
  ⟨rfl, rfl⟩

/-- C6 counterexample: for `\x7b"type": \x7b\x7d\x7d` the source raises
`TypeError` instead of returning the "Unsupported event type" envelope
the claim predicts for every non-allowed `type` value. -/
theorem spec_C6_structural_counterexample :
    handler (.obj [("type", JVal.obj [])]) none =
      .error "TypeError: unhashable type: \x27dict\x27" ∧
    ¬ handler (.obj [("type", JVal.obj [])]) none =
        .ok (_err ["Unsupported event type: " ++ pyStr (JVal.obj [])]) := by
  refine ⟨rfl, ?_⟩
  intro heq
  rw [show handler (.obj [("type", JVal.obj [])]) none =
      .error "TypeError: unhashable type: \x27dict\x27" from rfl] at heq
  exact Except.noConfusion heq

/-- C6 (amended): `handler` performs its structural checks in a fixed
short-circuit sequence: non-record input gives errors
`["Event must be a dictionary"]` (with message "Event rejected", which
`_err` always sets); a record without a `type` key gives
`["Missing 'type' field"]`; a record whose `type` value is hashable and
not one of the three allowed types gives
`["Unsupported event type: <value>"]` with the offending value
interpolated; a record whose `type` value is unhashable (a list or dict)
makes the membership test raise, and the exception propagates; otherwise
the matching validator's envelope is returned unmodified. -/
theorem spec_C6_structural_checks (e : JVal) (ctx : Option JVal) :
    ((∀ kvs, e ≠ JVal.obj kvs) →
        handler e ctx = .ok (_err ["Event must be a dictionary"])) ∧
    (∀ kvs, e = JVal.obj kvs → kvs.lookup "type" = none →
        handler e ctx = .ok (_err ["Missing \x27type\x27 field"])) ∧
    (∀ kvs v, e = JVal.obj kvs → kvs.lookup "type" = some v →
        in_ALLOWED_TYPES v = .ok false →
        handler e ctx = .ok (_err ["Unsupported event type: " ++ pyStr v])) ∧
    (∀ kvs v msg, e = JVal.obj kvs → kvs.lookup "type" = some v →
        in_ALLOWED_TYPES v = .error msg →
        handler e ctx = .error msg) ∧
    (∀ kvs s, e = JVal.obj kvs → kvs.lookup "type" = some (JVal.str s) →
        (s = "USER_SIGNUP" → handler e ctx = handle_user_signup kvs) ∧
        (s = "PAYMENT" → handler e ctx = handle_payment kvs) ∧
        (s = "FILE_UPLOAD" → handler e ctx = handle_file_upload kvs)) := by
  refine ⟨?_, ?_, ?_, ?_, ?_⟩
  · intro hno
    cases e with
    | obj kvs => exact absurd rfl (hno kvs)
    | null => rfl
    | bool b => rfl
    | int n => rfl
    | float q => rfl
    | str s => rfl
    | list xs => rfl
  · rintro kvs rfl hnone
    simp [handler, hnone]
  · rintro kvs v rfl hsome hmem
    simp [handler, hsome, hmem]
  · rintro kvs v msg rfl hsome hmem
    simp [handler, hsome, hmem]
  · rintro kvs s rfl hsome
    refine ⟨?_, ?_, ?_⟩ <;> rintro rfl <;> simp [handler, hsome, in_ALLOWED_TYPES]

/-- C6 witness: the five structural behaviours at concrete inputs. -/
theorem spec_C6_structural_checks_witness :
    handler (.int 3) none = .ok (_err ["Event must be a dictionary"]) ∧
    handler (.obj [("x", .null)]) none = .ok (_err ["Missing \x27type\x27 field"]) ∧
    handler (.obj [("type", .str "UNKNOWN")]) none =
      .ok (_err ["Unsupported event type: UNKNOWN"]) ∧
    handler (.obj [("type", .list [JVal.int 1])]) none =
      .error "TypeError: unhashable type: \x27list\x27" ∧
    handler (.obj [("type", .str "PAYMENT")]) none =
      handle_payment [("type", .str "PAYMENT")] := by
  refine ⟨?_, ?_, ?_, ?_, ?_⟩
  · exact (spec_C6_structural_checks (.int 3) none).1 (fun kvs h => JVal.noConfusion h)
  · exact (spec_C6_structural_checks _ none).2.1 _ rfl rfl
  · exact (spec_C6_structural_checks _ none).2.2.1 _ (.str "UNKNOWN") rfl rfl rfl
  · exact (spec_C6_structural_checks _ none).2.2.2.1 _ (.list [JVal.int 1])
      "TypeError: unhashable type: \x27list\x27" rfl rfl rfl
  · exact ((spec_C6_structural_checks (.obj [("type", .str "PAYMENT")]) none).2.2.2.2
      [("type", .str "PAYMENT")] "PAYMENT" rfl rfl).2.1 rfl

/-- C7: every USER_SIGNUP event that passes all validation yields the
success envelope with message "Signup processed", the unchanged integer
`user_id`, the lower-cased email and plan, and
`welcome_email_subject = "Welcome to the <plan> plan!"` built from the
lower-cased plan. -/
theorem spec_C7_signup_success (kvs : List (String × JVal)) (u : ℤ)
    (es ps : String)
    (hu : dictGet kvs "user_id" = .int u)
    (he : dictGet kvs "email" = .str es)
    (hp : dictGet kvs "plan" = .str ps)
    (hval : signupErrors (.int u) (.str es) (.str ps) = []) :
    handle_user_signup kvs = .ok (_ok "Signup processed" (.obj [
      ("user_id", .int u),
      ("email", .str (pyLower es)),
      ("plan", .str (pyLower ps)),
      ("welcome_email_subject",
        .str ("Welcome to the " ++ pyLower ps ++ " plan!"))])) := by
  simp only [handle_user_signup, hu, he, hp, hval]
  rfl

/-- C7 witness: the spec's scenario 1. -/
theorem spec_C7_signup_success_witness :
    signupErrors (.int 7) (.str "A@B.com") (.str "PRO") = [] ∧
    handler (.obj [("type", .str "USER_SIGNUP"), ("user_id", .int 7),
        ("email", .str "A@B.com"), ("plan", .str "PRO")]) none =
      .ok (_ok "Signup processed" (.obj [
        ("user_id", .int 7),
        ("email", .str "a@b.com"),
        ("plan", .str "pro"),
        ("welcome_email_subject", .str "Welcome to the pro plan!")])) := by
  refine ⟨rfl, ?_⟩
  exact spec_C7_signup_success
    [("type", .str "USER_SIGNUP"), ("user_id", .int 7),
     ("email", .str "A@B.com"), ("plan", .str "PRO")]
    7 "A@B.com" "PRO" rfl rfl rfl rfl

/-- C3: every PAYMENT event that passes all validation has its success
data computed in order with rounding at each step: `amount = round3 q`
for the float value `q` of the input amount, `fee` is `round3` of the
rounded amount times 0.02, and `net_amount` is `round3` of the rounded
amount minus the rounded fee. -/
theorem spec_C3_payment_rounding (kvs : List (String × JVal)) (a c : JVal)
    (q : ℚ) (cs : String)
    (ha : dictGet kvs "amount" = a)
    (hc : dictGet kvs "currency" = c)
    (hq : pyFloat a = some q)
    (hcs : c = .str cs)
    (hval : paymentErrors (dictGet kvs "payment_id") (dictGet kvs "user_id")
      a c = []) :
    handle_payment kvs = .ok (_ok "Payment processed" (.obj [
      ("payment_id", dictGet kvs "payment_id"),
      ("user_id", dictGet kvs "user_id"),
      ("amount", .float (round3 q)),
      ("currency", .str (pyUpper cs)),
      ("fee", .float (round3 (round3 q * (2 / 100)))),
      ("net_amount",
        .float (round3 (round3 q - round3 (round3 q * (2 / 100)))))])) := by
  subst hcs
  simp only [handle_payment, ha, hc, hq, hval]
  rfl

/-- C3 witness: the spec's scenario 2, payment of 100 usd giving
amount 100.0, fee 2.0, net 98.0 and currency "USD". -/
theorem spec_C3_payment_rounding_witness :
    paymentErrors (.str "p1") (.int 1) (.int 100) (.str "usd") = [] ∧
    handler (.obj [("type", .str "PAYMENT"), ("payment_id", .str "p1"),
        ("user_id", .int 1), ("amount", .int 100),
        ("currency", .str "usd")]) none =
      .ok (_ok "Payment processed" (.obj [
        ("payment_id", .str "p1"), ("user_id", .int 1),
        ("amount", .float 100), ("currency", .str "USD"),
        ("fee", .float 2), ("net_amount", .float 98)])) := by
  refine ⟨rfl, ?_⟩
  have hA : round3 (((100 : ℤ) : ℚ)) = 100 := by
    rw [round3_of_intCast _ 100000 (by push_cast; norm_num)]; norm_num
  have h := spec_C3_payment_rounding
    [("type", .str "PAYMENT"), ("payment_id", .str "p1"),
     ("user_id", .int 1), ("amount", .int 100), ("currency", .str "usd")]
    (.int 100) (.str "usd") (((100 : ℤ) : ℚ)) "usd" rfl rfl rfl rfl rfl
  rw [hA] at h
  have hF : round3 ((100 : ℚ) * (2 / 100)) = 2 := by
    rw [round3_of_intCast _ 2000 (by norm_num)]; norm_num
  rw [hF] at h
  have hN : round3 ((100 : ℚ) - 2) = 98 := by
    rw [round3_of_intCast _ 98000 (by norm_num)]; norm_num
  rw [hN] at h
  exact h

/-- C4: every FILE_UPLOAD event that passes all validation gets
`storage_class` from a 3-way threshold on the original integer
`size_bytes`, with boundary values 1,000,000 and 50,000,000 mapping to
the higher tier and 999,999 / 49,999,999 to the lower. -/
theorem spec_C4_storage_class (kvs : List (String × JVal))
    (fs bs us : String) (n : ℤ)
    (hf : dictGet kvs "file_name" = .str fs)
    (hn : dictGet kvs "size_bytes" = .int n)
    (hb : dictGet kvs "bucket" = .str bs)
    (hup : dictGet kvs "uploader" = .str us)
    (hval : fileUploadErrors (.str fs) (.int n) (.str bs) (.str us) = []) :
    (handle_file_upload kvs = .ok (_ok "Upload processed" (.obj [
      ("file_name", .str (pyStrip fs)),
      ("size_bytes", .int n),
      ("bucket", .str (pyLower bs)),
      ("uploader", .str (pyLower us)),
      ("storage_class", .str (storage_class_of n))]))) ∧
    (n < 1000000 → storage_class_of n = "STANDARD") ∧
    (1000000 ≤ n → n < 50000000 → storage_class_of n = "STANDARD_IA") ∧
    (50000000 ≤ n → storage_class_of n = "GLACIER") ∧
    storage_class_of 999999 = "STANDARD" ∧
    storage_class_of 1000000 = "STANDARD_IA" ∧
    storage_class_of 49999999 = "STANDARD_IA" ∧
    storage_class_of 50000000 = "GLACIER" := by
  refine ⟨?_, ?_, ?_, ?_, rfl, rfl, rfl, rfl⟩
  · simp only [handle_file_upload, hf, hn, hb, hup, hval]
    rfl
  · intro h
    simp [storage_class_of, h]
  · intro h1 h2
    simp only [storage_class_of]
    rw [if_neg (by omega), if_pos h2]
  · intro h
    simp only [storage_class_of]
    rw [if_neg (by omega), if_neg (by omega)]

/-- C4 witness: the spec's scenario 4, a 2,000,000-byte upload mapping
to "STANDARD_IA" with trimmed and lower-cased fields. -/
theorem spec_C4_storage_class_witness :
    fileUploadErrors (.str " a.txt ") (.int 2000000) (.str "B")
      (.str "U@X.com") = [] ∧
    handler (.obj [("type", .str "FILE_UPLOAD"), ("file_name", .str " a.txt "),
        ("size_bytes", .int 2000000), ("bucket", .str "B"),
        ("uploader", .str "U@X.com")]) none =
      .ok (_ok "Upload processed" (.obj [
        ("file_name", .str "a.txt"), ("size_bytes", .int 2000000),
        ("bucket", .str "b"), ("uploader", .str "u@x.com"),
        ("storage_class", .str "STANDARD_IA")])) := by
  refine ⟨rfl, ?_⟩
  exact (spec_C4_storage_class
    [("type", .str "FILE_UPLOAD"), ("file_name", .str " a.txt "),
     ("size_bytes", .int 2000000), ("bucket", .str "B"),
     ("uploader", .str "U@X.com")]
    " a.txt " "B" "U@X.com" 2000000 rfl rfl rfl rfl rfl).1

theorem filter_table (c : Bool) (m : String) (rest : List (Bool × String)) :
    (((c, m) :: rest).filter (fun p => !p.1)).map Prod.snd =
      (if !c then [m] else []) ++ (rest.filter (fun p => !p.1)).map Prod.snd := by
  cases c <;> simp [List.filter_cons]

theorem ge0_cond (a : Bool) (x : ℤ) :
    (!((!a) || decide (0 ≤ x))) = (a && decide (x < 0)) := by
  by_cases h : (0 : ℤ) ≤ x
  · simp [decide_eq_true h, decide_eq_false (not_lt.mpr h)]
  · simp [decide_eq_false h, decide_eq_true (not_le.mp h)]

theorem email_seg (u : JVal) :
    (match u with
      | JVal.str s => if !_is_email s then ["Invalid uploader email"] else []
      | _ => ([] : List String)) =
      (if !(match u with | JVal.str s => _is_email s | _ => true)
        then ["Invalid uploader email"] else []) := by
  cases u <;> simp

theorem fileUploadErrors_eq_spec (f s b u : JVal) :
    fileUploadErrors f s b u = spec_file_upload_errors f s b u := by
  simp only [spec_file_upload_errors, spec_file_upload_checks, filter_table,
    List.filter_nil, List.map_nil, List.append_nil, fileUploadErrors]
  rw [email_seg, ge0_cond]
  simp only [List.append_assoc]

/-- C5: for every FILE_UPLOAD event with at least one field validation
failure, the error envelope carries exactly the messages of all failed
applicable checks in declaration order (file_name type, size_bytes type,
size_bytes >= 0 gated on the type check, bucket type, uploader type,
uploader email format gated on the type check), as described by the
spec-side check table. -/
theorem spec_C5_upload_error_accumulation (kvs : List (String × JVal)) :
    (∀ f s b u, fileUploadErrors f s b u = spec_file_upload_errors f s b u) ∧
    (fileUploadErrors (dictGet kvs "file_name") (dictGet kvs "size_bytes")
        (dictGet kvs "bucket") (dictGet kvs "uploader") ≠ [] →
      handle_file_upload kvs = .ok (_err (spec_file_upload_errors
        (dictGet kvs "file_name") (dictGet kvs "size_bytes")
        (dictGet kvs "bucket") (dictGet kvs "uploader")))) := by
  refine ⟨fun f s b u => fileUploadErrors_eq_spec f s b u, ?_⟩
  intro hne
  simp only [handle_file_upload]
  rw [← fileUploadErrors_eq_spec]
  rcases h : fileUploadErrors (dictGet kvs "file_name") (dictGet kvs "size_bytes")
      (dictGet kvs "bucket") (dictGet kvs "uploader") with - | ⟨m, ms⟩
  · exact absurd h hne
  · rfl

/-- C5 witness: an upload whose fields fail as non-string file name,
negative size, non-string bucket and badly-formatted uploader, showing
both gates (the >= 0 check fires only after the type check passed, the
email check fires only on a string uploader). -/
theorem spec_C5_upload_error_accumulation_witness :
    fileUploadErrors (.int 3) (.int (-5)) (.bool true) (.str "bad") ≠ [] ∧
    handle_file_upload [("file_name", .int 3), ("size_bytes", .int (-5)),
        ("bucket", .bool true), ("uploader", .str "bad")] =
      .ok (_err ["file_name must be a string", "size_bytes must be >= 0",
        "bucket must be a string", "Invalid uploader email"]) := by
  refine ⟨by decide, ?_⟩
  have h := (spec_C5_upload_error_accumulation
    [("file_name", .int 3), ("size_bytes", .int (-5)),
     ("bucket", .bool true), ("uploader", .str "bad")]).2 (by decide)
  rw [h]
  rfl

theorem count_if_single_eq {c : Prop} [Decidable c] {m : String} :
    ((if c then [m] else []) : List String).count m = if c then 1 else 0 := by
  split <;> simp [List.count_cons]

theorem count_if_single_ne {c : Prop} [Decidable c] {x m : String}
    (h : (x == m) = false) :
    ((if c then [x] else []) : List String).count m = 0 := by
  split <;> simp [List.count_cons, h]

theorem lookup_cons_self {kvs : List (String × JVal)} {f k : String}
    (h : kvs.lookup f = none) :
    dictGet ((f, JVal.null) :: kvs) k = dictGet kvs k := by
  by_cases hf : f = k
  · subst hf
    simp [dictGet, List.lookup, h]
  · simp [dictGet, List.lookup, beq_eq_false_iff_ne.mpr (Ne.symm hf)]

/-- C9: boolean field values pass the integer and number type checks
(`isinstance(True, int)` holds in Python): a boolean `user_id`,
`size_bytes` or `amount` never produces the corresponding type error,
and a payment with `amount = True` that otherwise validates succeeds
with `data.amount = 1.0`. -/
theorem spec_C9_bool_numeric :
    (∀ (b : Bool) (e p : JVal),
      (signupErrors (.bool b) e p).count "user_id must be an integer" = 0) ∧
    (∀ (b : Bool) (pid a c : JVal),
      (paymentErrors pid (.bool b) a c).count "user_id must be an integer" = 0) ∧
    (∀ (b : Bool) (pid u c : JVal),
      (paymentErrors pid u (.bool b) c).count "amount must be a number" = 0) ∧
    (∀ (b : Bool) (f bk up : JVal),
      (fileUploadErrors f (.bool b) bk up).count "size_bytes must be an integer" = 0) ∧
    handle_payment [("payment_id", .str "p1"), ("user_id", .int 1),
        ("amount", .bool true), ("currency", .str "usd")] =
      .ok (_ok "Payment processed" (.obj [("payment_id", .str "p1"),
        ("user_id", .int 1), ("amount", .float 1), ("currency", .str "USD"),
        ("fee", .float (2 / 100)), ("net_amount", .float (49 / 50))])) := by
  refine ⟨?_, ?_, ?_, ?_, ?_⟩
  · intro b e p
    cases e <;> cases p <;>
      simp [signupErrors, List.count_append, count_if_single_eq,
        count_if_single_ne, py_isinstance_int, py_isinstance_str]
  · intro b pid a c
    cases c <;>
      simp [paymentErrors, List.count_append, count_if_single_eq,
        count_if_single_ne, py_isinstance_int]
  · intro b pid u c
    cases c <;>
      simp [paymentErrors, List.count_append, count_if_single_eq,
        count_if_single_ne, py_isinstance_num]
  · intro b f bk up
    cases up <;>
      simp [fileUploadErrors, List.count_append, count_if_single_eq,
        count_if_single_ne, py_isinstance_int]
  · have hA : round3 ((1 : ℚ)) = 1 := by
      rw [round3_of_intCast _ 1000 (by norm_num)]; norm_num
    have hF : round3 ((1 : ℚ) * (2 / 100)) = 2 / 100 := by
      rw [round3_of_intCast _ 20 (by norm_num)]; norm_num
    have hN : round3 ((1 : ℚ) - 2 / 100) = 49 / 50 := by
      rw [round3_of_intCast _ 980 (by norm_num)]; norm_num
    rw [show handle_payment [("payment_id", .str "p1"), ("user_id", .int 1),
          ("amount", .bool true), ("currency", .str "usd")] =
        .ok (_ok "Payment processed" (.obj [("payment_id", .str "p1"),
          ("user_id", .int 1), ("amount", .float (round3 1)),
          ("currency", .str (pyUpper "usd")),
          ("fee", .float (round3 (round3 1 * (2 / 100)))),
          ("net_amount",
            .float (round3 (round3 1 - round3 (round3 1 * (2 / 100)))))]))
      from rfl, hA, hF, hN]
    rfl

/-- C10: a required field that is absent from a recognized event is
reported exactly like an explicit-null field: `event.get` reads absence
as null, prepending an explicit null binding changes nothing, and each
validator emits the single corresponding type error for a null field,
with no separate missing-field message. -/
theorem spec_C10_missing_field_as_null :
    (∀ (kvs : List (String × JVal)) (f : String), kvs.lookup f = none →
      dictGet kvs f = JVal.null ∧
      handle_user_signup ((f, JVal.null) :: kvs) = handle_user_signup kvs ∧
      handle_payment ((f, JVal.null) :: kvs) = handle_payment kvs ∧
      handle_file_upload ((f, JVal.null) :: kvs) = handle_file_upload kvs) ∧
    (∀ e p, (signupErrors JVal.null e p).count "user_id must be an integer" = 1) ∧
    (∀ u p, (signupErrors u JVal.null p).count "email must be a string" = 1) ∧
    (∀ u e, (signupErrors u e JVal.null).count "plan must be a string" = 1) ∧
    (∀ u a c, (paymentErrors JVal.null u a c).count "payment_id must be a string" = 1) ∧
    (∀ pid a c, (paymentErrors pid JVal.null a c).count "user_id must be an integer" = 1) ∧
    (∀ pid u c, (paymentErrors pid u JVal.null c).count "amount must be a number" = 1) ∧
    (∀ pid u a, (paymentErrors pid u a JVal.null).count "currency must be a string" = 1) ∧
    (∀ s b u, (fileUploadErrors JVal.null s b u).count "file_name must be a string" = 1) ∧
    (∀ f b u, (fileUploadErrors f JVal.null b u).count "size_bytes must be an integer" = 1) ∧
    (∀ f s u, (fileUploadErrors f s JVal.null u).count "bucket must be a string" = 1) ∧
    (∀ f s b, (fileUploadErrors f s b JVal.null).count "uploader must be a string" = 1) := by
  refine ⟨?_, ?_, ?_, ?_, ?_, ?_, ?_, ?_, ?_, ?_, ?_, ?_⟩
  · intro kvs f h
    have dcn : ∀ k, dictGet ((f, JVal.null) :: kvs) k = dictGet kvs k :=
      fun k => lookup_cons_self h
    refine ⟨by simp [dictGet, h], ?_, ?_, ?_⟩
    · simp only [handle_user_signup, dcn]
    · simp only [handle_payment, dcn]
    · simp only [handle_file_upload, dcn]
  · intro e p
    cases e <;> cases p <;>
      simp [signupErrors, List.count_append, count_if_single_eq,
        count_if_single_ne, py_isinstance_int, py_isinstance_str]
  · intro u p
    cases p <;>
      simp [signupErrors, List.count_append, count_if_single_eq,
        count_if_single_ne, py_isinstance_str]
  · intro u e
    cases e <;>
      simp [signupErrors, List.count_append, count_if_single_eq,
        count_if_single_ne, py_isinstance_str]
  · intro u a c
    cases c <;>
      simp [paymentErrors, List.count_append, count_if_single_eq,
        count_if_single_ne, py_isinstance_str]
  · intro pid a c
    cases c <;>
      simp [paymentErrors, List.count_append, count_if_single_eq,
        count_if_single_ne, py_isinstance_int]
  · intro pid u c
    cases c <;>
      simp [paymentErrors, List.count_append, count_if_single_eq,
        count_if_single_ne, py_isinstance_num]
  · intro pid u a
    simp [paymentErrors, List.count_append, count_if_single_eq,
      count_if_single_ne, py_isinstance_str]
  · intro s b u
    cases u <;>
      simp [fileUploadErrors, List.count_append, count_if_single_eq,
        count_if_single_ne, py_isinstance_str]
  · intro f b u
    cases u <;>
      simp [fileUploadErrors, List.count_append, count_if_single_eq,
        count_if_single_ne, py_isinstance_int]
  · intro f s u
    cases u <;>
      simp [fileUploadErrors, List.count_append, count_if_single_eq,
        count_if_single_ne, py_isinstance_str]
  · intro f s b
    simp [fileUploadErrors, List.count_append, count_if_single_eq,
      count_if_single_ne, py_isinstance_str]

/-- C10 witness: a signup event with `user_id` absent reads it as null,
is unchanged by adding an explicit null binding, and reports exactly one
`user_id` type error. -/
theorem spec_C10_missing_field_as_null_witness :
    dictGet [("email", JVal.str "x")] "user_id" = JVal.null ∧
    handle_user_signup [("user_id", JVal.null), ("email", JVal.str "x")] =
      handle_user_signup [("email", JVal.str "x")] ∧
    (signupErrors JVal.null (.str "x") (.bool true)).count
      "user_id must be an integer" = 1 := by
  obtain ⟨h1, h2, -, -⟩ :=
    spec_C10_missing_field_as_null.1 [("email", JVal.str "x")] "user_id" rfl
  exact ⟨h1, h2, spec_C10_missing_field_as_null.2.1 (.str "x") (.bool true)⟩

theorem dropWhile_head_not {α : Type} {p : α → Bool} :
    ∀ {l : List α} {a : α} {t : List α}, l.dropWhile p = a :: t → p a = false := by
  intro l
  induction l with
  | nil => intro a t h; simp [List.dropWhile] at h
  | cons x xs ih =>
    intro a t h
    by_cases hp : p x
    · rw [List.dropWhile_cons_of_pos hp] at h
      exact ih h
    · rw [List.dropWhile_cons_of_neg hp] at h
      cases h
      simpa using hp

theorem emailCore_eq (cs : List Char) :
    emailMatchCore cs =
      ((cs.countP (fun c => c == '@') == 1) &&
        (!(cs.takeWhile (fun c => c != '@')).isEmpty) &&
        cs.all (fun c => !pyWhitespace c) &&
        ((((cs.dropWhile (fun c => c != '@')).drop 1).drop 1).dropLast.contains '.')) := by
  rcases hdw : cs.dropWhile (fun c => c != '@') with - | ⟨a, dom⟩
  · have hall : ∀ x ∈ cs, (x != '@') = true := List.dropWhile_eq_nil_iff.mp hdw
    have hcount : cs.countP (fun c => c == '@') = 0 := by
      rw [List.countP_eq_zero]
      intro x hx
      simpa using hall x hx
    simp [emailMatchCore, hdw, hcount]
  · have ha : a = '@' := by
      have h := dropWhile_head_not hdw
      simpa using h
    subst ha
    simp only [emailMatchCore, hdw]
    have hL : ∀ x ∈ cs.takeWhile (fun c => c != '@'), (x != '@') = true :=
      fun x hx => List.mem_takeWhile_imp (p := fun c => c != '@') hx
    generalize hLdef : cs.takeWhile (fun c => c != '@') = L at hL
    have hsplit : cs = L ++ '@' :: dom := by
      rw [← hLdef, ← hdw]
      exact (List.takeWhile_append_dropWhile _ _).symm
    rw [hsplit]
    have hcountL : L.countP (fun c => c == '@') = 0 := by
      rw [List.countP_eq_zero]
      intro x hx
      simpa using hL x hx
    rw [Bool.eq_iff_iff]
    simp only [Bool.and_eq_true, List.all_eq_true, List.countP_append,
      List.countP_cons, List.mem_append, List.mem_cons, beq_iff_eq, emailChar,
      bne_iff_ne, Bool.not_eq_true', hcountL, List.drop_succ_cons, List.drop_zero]
    constructor
    · rintro ⟨⟨⟨h1, h2⟩, h3⟩, h4⟩
      refine ⟨⟨⟨?_, h1⟩, ?_⟩, h4⟩
      · have hdom0 : dom.countP (fun c => c == '@') = 0 :=
          List.countP_eq_zero.mpr (fun x hx => by simp [(h3 x hx).1])
        simp [hdom0]
      · rintro x (hx | rfl | hx)
        · exact (h2 x hx).2
        · decide
        · exact (h3 x hx).2
    · rintro ⟨⟨⟨hP, h1⟩, hW⟩, h4⟩
      have hdom0 : dom.countP (fun c => c == '@') = 0 := by
        simpa using hP
      have hne : ∀ x ∈ dom, x ≠ '@' := fun x hx => by
        simpa using List.countP_eq_zero.mp hdom0 x hx
      exact ⟨⟨⟨h1, fun x hx => ⟨by simpa using hL x hx, hW x (Or.inl hx)⟩⟩,
        fun x hx => ⟨hne x hx, hW x (Or.inr (Or.inr hx))⟩⟩, h4⟩

/-- C8 counterexample: the code's regex accepts "a@b.c\n" (the `$`
anchor matches before a trailing newline) although it contains
whitespace, and rejects "a@.b" although the prose pattern (one `@`,
non-empty text on both sides, no whitespace, a `.` in the domain)
accepts it. -/
theorem spec_C8_email_counterexample :
    (_is_email "a@b.c\n" = true ∧ spec_email_prose "a@b.c\n" = false) ∧
    (_is_email "a@.b" = false ∧ spec_email_prose "a@.b" = true) := by
  refine ⟨⟨by decide, by decide⟩, by decide, by decide⟩

/-- C8 amended: the email check accepts a string iff, after ignoring one
trailing newline, it contains exactly one `@`, non-empty text before the
`@`, no whitespace anywhere, and the domain after the `@` contains a `.`
with at least one character before it and after it within the domain. -/
theorem spec_C8_email_amended (s : String) :
    _is_email s = spec_email_amended s :=
  emailCore_eq (stripTrailingNewline s.data)

end LambdaHandler
